import Mathlib

/-!
Verification of the adaptive rate limiter in
`src/Projects/Downloader/grabber/ratelimit.py` (class `RateLimiter`).

The Python class mixes immutable configuration (set and clamped in
`__init__`) with mutable state.  We split it: `RateLimiter` holds the
clamped configuration, `LimiterState` the mutable fields.  Python floats
are modelled as exact rationals (every computation the claims exercise
is exact in this model), Python ints as `Int`, absent values (`None`) as
`Option`, and the wall clock as an explicit `now : ℚ` argument.  Python
exceptions are modelled with `Except PyExn`.  String processing is
modelled over `List Char` (ASCII suffices for the header names and
decimal header values the code handles).
-/

/-- Python exceptions relevant to the limiter: `int(...)` raises
`ValueError` on a malformed string (or `TypeError` on a non-string
argument); the `except (ValueError, TypeError)` clause catches exactly
these two. -/
inductive PyExn where
  | valueError
  | typeError
  | other (msg : String)
deriving DecidableEq

/-- Python `str.strip()` (for the whitespace stripping done inside
`int(...)`): drop whitespace from both ends. -/
def pyStrip (l : List Char) : List Char :=
  ((l.dropWhile Char.isWhitespace).reverse.dropWhile Char.isWhitespace).reverse

/-- Decimal value of a digit string. -/
def digitsToNat (ds : List Char) : Nat :=
  ds.foldl (fun acc c => acc * 10 + (c.toNat - '0'.toNat)) 0

/-- Model of Python `int(s)` on a string: strip surrounding whitespace,
accept an optional sign followed by one or more decimal digits; `none`
models the `ValueError` raised on anything else. -/
def pyInt (s : String) : Option Int :=
  let t := pyStrip s.data
  let sd : Int × List Char :=
    match t with
    | '-' :: rest => (-1, rest)
    | '+' :: rest => (1, rest)
    | _ => (1, t)
  if sd.2 ≠ [] ∧ sd.2.all Char.isDigit then
    some (sd.1 * (digitsToNat sd.2 : Int))
  else
    none

/-- The dict comprehension `{k.lower(): v for k, v in headers.items()}`:
keys lowercased.  Insertion order is kept; `dictGet` takes the last
binding of a key, matching dict-comprehension overwrite semantics. -/
def headerMap (headers : List (String × String)) : List (List Char × String) :=
  headers.map (fun p => (p.1.data.map Char.toLower, p.2))

/-- Python `dict.get(k, dflt)` on the association list built by
`headerMap`: the value of the last pair whose key is `k`, else `dflt`. -/
def dictGet (m : List (List Char × String)) (k : List Char) (dflt : String) : String :=
  (m.foldl (fun acc p => if p.1 = k then some p.2 else acc) none).getD dflt

/-- Lower-cased name of the `X-Ratelimit-Used` header. -/
def usedKey : List Char := "x-ratelimit-used".data

/-- Lower-cased name of the `X-Ratelimit-Remaining` header. -/
def remainingKey : List Char := "x-ratelimit-remaining".data

/-- Lower-cased name of the `X-Ratelimit-Reset` header. -/
def resetKey : List Char := "x-ratelimit-reset".data

/-- Immutable configuration of `RateLimiter` (fields set in `__init__`
and never mutated afterwards). -/
structure RateLimiter where
  safe_margin : ℚ
  min_rps_threshold : ℚ
  fallback_max_rpm : Int
deriving DecidableEq

/-- `RateLimiter.__init__`: clamp `safe_margin` to `[0.1, 0.95]`,
`min_rps_threshold` to `≥ 0.1`, `fallback_max_rpm` to `≥ 1`. -/
def mkRateLimiter (safe_margin min_rps_threshold : ℚ) (fallback_max_rpm : Int) :
    RateLimiter :=
  { safe_margin := max 0.1 (min safe_margin 0.95)
    min_rps_threshold := max 0.1 min_rps_threshold
    fallback_max_rpm := max 1 fallback_max_rpm }

/-- Mutable state of a `RateLimiter` instance. -/
structure LimiterState where
  used : Option Int
  remaining : Option Int
  reset_seconds : Option Int
  last_header_time : ℚ
  missing_headers_count : Nat
deriving DecidableEq

/-- State right after `__init__`: no quota fields set,
`_last_header_time = 0.0`, `_missing_headers_count = 0`. -/
def initState : LimiterState :=
  { used := none
    remaining := none
    reset_seconds := none
    last_header_time := 0
    missing_headers_count := 0 }

/-- The `try:` block of `update_from_headers`, with Python's sequential
field assignment made explicit: `self._used`, `self._remaining`,
`self._reset_seconds` are assigned in that order, so a parse failure
leaves the fields assigned before the failure point mutated.  Returns
the state as mutated when the block finished or raised, plus the raised
exception if any.  Each `int(header_map.get(key, '0'))` is `pyInt` of
`dictGet _ key "0"`. -/
def tryBody (hm : List (List Char × String)) (s : LimiterState) :
    LimiterState × Option PyExn :=
  match pyInt (dictGet hm usedKey "0") with
  | none => (s, some PyExn.valueError)
  | some u =>
    let s1 := { s with used := some u }
    match pyInt (dictGet hm remainingKey "0") with
    | none => (s1, some PyExn.valueError)
    | some r =>
      let s2 := { s1 with remaining := some r }
      match pyInt (dictGet hm resetKey "0") with
      | none => (s2, some PyExn.valueError)
      | some t => ({ s2 with reset_seconds := some t, missing_headers_count := 0 }, none)

/-- `update_from_headers`, exception-transparent: `_last_header_time` is
set to `now` unconditionally before the `try:`; the
`except (ValueError, TypeError)` clause increments
`_missing_headers_count`; any other exception would propagate. -/
def updateFromHeadersE (now : ℚ) (headers : List (String × String)) (s : LimiterState) :
    Except PyExn LimiterState :=
  match tryBody (headerMap headers) { s with last_header_time := now } with
  | (s1, none) => Except.ok s1
  | (s1, some PyExn.valueError) =>
      Except.ok { s1 with missing_headers_count := s1.missing_headers_count + 1 }
  | (s1, some PyExn.typeError) =>
      Except.ok { s1 with missing_headers_count := s1.missing_headers_count + 1 }
  | (_, some e) => Except.error e

/-- `update_from_headers` as a state transformer.  The `Except.error`
branch is provably unreachable (theorem for claim C5). -/
def updateFromHeaders (now : ℚ) (headers : List (String × String)) (s : LimiterState) :
    LimiterState :=
  match updateFromHeadersE now headers s with
  | Except.ok s1 => s1
  | Except.error _ => s

/-- The `f"{x:.2f}"` formatting in the case-4 reason string, modelled as
rounding to the nearest hundredth (exact on the values the claims
exercise; none of them are ties). -/
def fmt2 (q : ℚ) : String :=
  let cents : Int := round (q * 100)
  let frac := (cents % 100).toNat
  let fracStr := if frac < 10 then "0" ++ toString frac else toString frac
  toString (cents / 100) ++ "." ++ fracStr

/-- `_calculate_sleep_time`: the five prioritized cases, returning
`(sleep_seconds, reason)`. -/
def calcSleepTime (rl : RateLimiter) (s : LimiterState) : ℚ × String :=
  match s.remaining, s.reset_seconds with
  | some remaining, some reset_seconds =>
    if reset_seconds < 2 then
      (0, "reset window expiring")
    else if (remaining : ℚ) > (reset_seconds : ℚ) * rl.min_rps_threshold * 1.5 then
      (0, "sufficient request allowance")
    else
      let case4 : Option (ℚ × String) :=
        if remaining > 0 ∧ reset_seconds > 0 then
          let safe_rps : ℚ := ((remaining : ℚ) / (reset_seconds : ℚ)) * rl.safe_margin
          if safe_rps < rl.min_rps_threshold then
            let sleep_time : ℚ := if safe_rps > 0 then 1 / safe_rps else (reset_seconds : ℚ)
            some (min sleep_time (reset_seconds : ℚ),
                  "throttling to " ++ fmt2 safe_rps ++ " req/sec")
          else none
        else none
      match case4 with
      | some r => r
      | none =>
        if remaining ≤ 2 then
          (((max 1 (reset_seconds - 1) : Int) : ℚ), "waiting for rate limit reset")
        else
          (0, "no throttling needed")
  | _, _ =>
    (60 / (rl.fallback_max_rpm : ℚ), "fallback rate limiting")

/-- `sleep()` (and `wait()`): pause for the computed duration when it is
positive, otherwise do not pause.  Returns the pause duration. -/
def sleepDuration (rl : RateLimiter) (s : LimiterState) : ℚ :=
  let r := calcSleepTime rl s
  if r.1 > 0 then r.1 else 0

/-! Helper lemmas shared by several claim proofs. -/

/-- The default construction `RateLimiter()` evaluates to the
configuration `safe_margin = 4/5`, `min_rps_threshold = 1`,
`fallback_max_rpm = 60`. -/
theorem mkRateLimiter_default_eval :
    mkRateLimiter 0.8 1.0 60 =
      { safe_margin := 4/5, min_rps_threshold := 1, fallback_max_rpm := 60 } := by
  unfold mkRateLimiter
  have h1 : min (0.8 : ℚ) 0.95 = 0.8 := min_eq_left (by norm_num)
  have h2 : max (0.1 : ℚ) 0.8 = 0.8 := max_eq_right (by norm_num)
  have h3 : max (0.1 : ℚ) 1.0 = 1.0 := max_eq_right (by norm_num)
  have h4 : max (1 : Int) 60 = 60 := max_eq_right (by norm_num)
  rw [h1, h2, h3, h4]
  simp only [RateLimiter.mk.injEq]
  norm_num

/-- Case 1 of `_calculate_sleep_time`: with `remaining` or
`reset_seconds` absent, the fallback pair is returned. -/
theorem calcSleepTime_fallback (rl : RateLimiter) (s : LimiterState)
    (h : s.remaining = none ∨ s.reset_seconds = none) :
    calcSleepTime rl s = (60 / (rl.fallback_max_rpm : ℚ), "fallback rate limiting") := by
  rcases s with ⟨u, rem, rst, lt, mc⟩
  rcases h with h | h
  · dsimp only at h
    subst h
    cases rst <;> rfl
  · dsimp only at h
    subst h
    cases rem <;> rfl

/-- Case 2 of `_calculate_sleep_time`. -/
theorem calcSleepTime_reset_expiring (rl : RateLimiter) (s : LimiterState) (rem rst : Int)
    (h1 : s.remaining = some rem) (h2 : s.reset_seconds = some rst) (h3 : rst < 2) :
    calcSleepTime rl s = (0, "reset window expiring") := by
  unfold calcSleepTime
  rw [h1, h2]
  dsimp only
  rw [if_pos h3]

/-- Case 4 of `_calculate_sleep_time` when throttling engages. -/
theorem calcSleepTime_throttle (rl : RateLimiter) (s : LimiterState) (rem rst : Int)
    (h1 : s.remaining = some rem) (h2 : s.reset_seconds = some rst)
    (h3 : ¬ rst < 2)
    (h4 : ¬ ((rem : ℚ) > (rst : ℚ) * rl.min_rps_threshold * 1.5))
    (h5 : rem > 0 ∧ rst > 0)
    (h6 : ((rem : ℚ) / (rst : ℚ)) * rl.safe_margin < rl.min_rps_threshold)
    (h7 : ((rem : ℚ) / (rst : ℚ)) * rl.safe_margin > 0) :
    calcSleepTime rl s =
      (min (1 / (((rem : ℚ) / (rst : ℚ)) * rl.safe_margin)) (rst : ℚ),
       "throttling to " ++ fmt2 (((rem : ℚ) / (rst : ℚ)) * rl.safe_margin) ++ " req/sec") := by
  unfold calcSleepTime
  rw [h1, h2]
  dsimp only
  rw [if_neg h3, if_neg h4, if_pos h5, if_pos h6, if_pos h7]

/-- Case 5 of `_calculate_sleep_time`, reached here through the failure
of the case-4 guard. -/
theorem calcSleepTime_wait_reset (rl : RateLimiter) (s : LimiterState) (rem rst : Int)
    (h1 : s.remaining = some rem) (h2 : s.reset_seconds = some rst)
    (h3 : ¬ rst < 2)
    (h4 : ¬ ((rem : ℚ) > (rst : ℚ) * rl.min_rps_threshold * 1.5))
    (h5 : ¬ (rem > 0 ∧ rst > 0)) (h6 : rem ≤ 2) :
    calcSleepTime rl s =
      (((max 1 (rst - 1) : Int) : ℚ), "waiting for rate limit reset") := by
  unfold calcSleepTime
  rw [h1, h2]
  dsimp only
  rw [if_neg h3, if_neg h4, if_neg h5]
  dsimp only
  rw [if_pos h6]

/-- Evaluation of the format model at `2/5`. -/
theorem fmt2_eval_two_fifths : fmt2 (2/5) = "0.40" := by
  have h : round ((2/5 : ℚ) * 100) = 40 := by norm_num [round_eq]
  simp only [fmt2, h]
  decide

/-- Evaluation of the format model at `1/15`. -/
theorem fmt2_eval_one_fifteenth : fmt2 (1/15) = "0.07" := by
  have h : round ((1/15 : ℚ) * 100) = 7 := by norm_num [round_eq]
  simp only [fmt2, h]
  decide

/-- Evaluation of the format model at `4/5`. -/
theorem fmt2_eval_four_fifths : fmt2 (4/5) = "0.80" := by
  have h : round ((4/5 : ℚ) * 100) = 80 := by norm_num [round_eq]
  simp only [fmt2, h]
  decide

/-- Evaluation of the format model at `1/75`. -/
theorem fmt2_eval_one_seventyfifth : fmt2 (1/75) = "0.01" := by
  have h : round ((1/75 : ℚ) * 100) = 1 := by norm_num [round_eq]
  simp only [fmt2, h]
  decide

/-- Claim C7: with `safe_margin = 0.8` and `min_rps_threshold = 1.0`,
the state `remaining = 5`, `reset_seconds = 10` yields
`safe_rps = (5/10)*0.8 = 0.4 < 1.0`, hence a sleep of exactly
`1/0.4 = 5/2` seconds with a reason containing "throttling" (the full
reason string is computed). -/
theorem C7_throttling_boundary :
    calcSleepTime (mkRateLimiter 0.8 1.0 60)
      { used := some 55, remaining := some 5, reset_seconds := some 10,
        last_header_time := 0, missing_headers_count := 0 } =
      (5/2, "throttling to 0.40 req/sec") := by
  rw [mkRateLimiter_default_eval]
  rw [calcSleepTime_throttle _ _ 5 10 rfl rfl (by norm_num)
      (by dsimp only; push_cast; norm_num)
      (by norm_num)
      (by dsimp only; push_cast; norm_num)
      (by dsimp only; push_cast; norm_num)]
  have hq : (((5 : Int) : ℚ) / ((10 : Int) : ℚ)) *
      ({ safe_margin := 4/5, min_rps_threshold := 1, fallback_max_rpm := 60 } :
        RateLimiter).safe_margin = 2/5 := by
    dsimp only
    push_cast
    norm_num
  rw [hq, fmt2_eval_two_fifths]
  have hmin : min (1 / (2/5 : ℚ)) ((10 : Int) : ℚ) = 5/2 := by
    rw [min_eq_left (by push_cast; norm_num)]
    norm_num
  rw [hmin, show "throttling to " ++ "0.40" ++ " req/sec" = "throttling to 0.40 req/sec"
    from by decide]

/-- Claim C8: with the default configuration, `remaining = 5`,
`reset_seconds = 1` hits case 2 first: sleep `0` with reason
"reset window expiring", and in particular not the case-5 reason. -/
theorem C8_reset_priority :
    calcSleepTime (mkRateLimiter 0.8 1.0 60)
      { used := some 595, remaining := some 5, reset_seconds := some 1,
        last_header_time := 0, missing_headers_count := 0 } =
      (0, "reset window expiring") ∧
    (calcSleepTime (mkRateLimiter 0.8 1.0 60)
      { used := some 595, remaining := some 5, reset_seconds := some 1,
        last_header_time := 0, missing_headers_count := 0 }).2 ≠
      "waiting for rate limit reset" := by
  rw [calcSleepTime_reset_expiring _ _ 5 1 rfl rfl (by norm_num)]
  exact ⟨rfl, by decide⟩

/-- Claim C1: evaluation of the code at the failing input.  On an empty
header map every `header_map.get(key, '0')` returns the default string
`'0'`, which parses, so the code stores `used = remaining =
reset_seconds = 0`, resets `missing_headers_count` to 0 (even discarding
previously stored values), and after 15 consecutive empty-map updates
the count is 0, not 15 — contradicting the claim and the code's own
tests (`test_missing_headers_fallback`, `test_rt2_headers_absent`). -/
theorem C1_empty_headers_eval :
    ((updateFromHeaders 0 [] initState).missing_headers_count = 0) ∧
    ((updateFromHeaders 0 [] initState).used = some 0) ∧
    ((updateFromHeaders 0 [] initState).remaining = some 0) ∧
    ((updateFromHeaders 0 [] initState).reset_seconds = some 0) ∧
    ((updateFromHeaders 0 []
        { used := some 42, remaining := some 17, reset_seconds := some 9,
          last_header_time := 0, missing_headers_count := 3 }).remaining = some 0) ∧
    (((fun s => updateFromHeaders 0 [] s)^[15] initState).missing_headers_count = 0) := by
  exact ⟨by decide, by decide, by decide, by decide, by decide, by decide⟩

/-- Claim C2 counterexample: a call whose `used` header parses but whose
`remaining` header is malformed is a failed call (the missing-header
count increments), yet it overwrites `used` with the fresh value while
`remaining` and `reset_seconds` keep their prior values — the three
fields are not stored atomically. -/
theorem C2_counterexample :
    ((updateFromHeaders 5 [("X-Ratelimit-Used", "9"), ("X-Ratelimit-Remaining", "abc")]
        { used := some 1, remaining := some 2, reset_seconds := some 3,
          last_header_time := 0, missing_headers_count := 0 }).missing_headers_count = 1) ∧
    ((updateFromHeaders 5 [("X-Ratelimit-Used", "9"), ("X-Ratelimit-Remaining", "abc")]
        { used := some 1, remaining := some 2, reset_seconds := some 3,
          last_header_time := 0, missing_headers_count := 0 }).used = some 9) ∧
    ((updateFromHeaders 5 [("X-Ratelimit-Used", "9"), ("X-Ratelimit-Remaining", "abc")]
        { used := some 1, remaining := some 2, reset_seconds := some 3,
          last_header_time := 0, missing_headers_count := 0 }).remaining = some 2) ∧
    ((updateFromHeaders 5 [("X-Ratelimit-Used", "9"), ("X-Ratelimit-Remaining", "abc")]
        { used := some 1, remaining := some 2, reset_seconds := some 3,
          last_header_time := 0, missing_headers_count := 0 }).reset_seconds = some 3) := by
  exact ⟨by decide, by decide, by decide, by decide⟩

/-- Claim C2 as amended: the three fields are assigned sequentially in
the order `used`, `remaining`, `reset_seconds`, so only a call whose
first (`used`) header fails to parse leaves all three fields unchanged;
a later failure can leave the earlier fields freshly overwritten. -/
theorem C2_amended_first_header_failure (now : ℚ) (headers : List (String × String))
    (s : LimiterState)
    (h : pyInt (dictGet (headerMap headers) usedKey "0") = none) :
    (updateFromHeaders now headers s).used = s.used ∧
    (updateFromHeaders now headers s).remaining = s.remaining ∧
    (updateFromHeaders now headers s).reset_seconds = s.reset_seconds ∧
    (updateFromHeaders now headers s).missing_headers_count = s.missing_headers_count + 1 := by
  unfold updateFromHeaders updateFromHeadersE tryBody
  rw [h]
  exact ⟨rfl, rfl, rfl, rfl⟩

/-- Witness for the amended C2 theorem at a concrete input. -/
theorem C2_amended_first_header_failure_witness :
    pyInt (dictGet (headerMap [("X-Ratelimit-Used", "abc")]) usedKey "0") = none ∧
    ((updateFromHeaders 1 [("X-Ratelimit-Used", "abc")] initState).used = initState.used ∧
     (updateFromHeaders 1 [("X-Ratelimit-Used", "abc")] initState).remaining =
       initState.remaining ∧
     (updateFromHeaders 1 [("X-Ratelimit-Used", "abc")] initState).reset_seconds =
       initState.reset_seconds ∧
     (updateFromHeaders 1 [("X-Ratelimit-Used", "abc")] initState).missing_headers_count =
       initState.missing_headers_count + 1) :=
  ⟨by decide, C2_amended_first_header_failure 1 [("X-Ratelimit-Used", "abc")] initState
    (by decide)⟩

/-- Claim C5: `update_from_headers` never lets an exception escape: for
every header list and every state the exception-transparent semantics
returns `Except.ok`, with the state transformer's result. -/
theorem C5_update_never_raises (now : ℚ) (headers : List (String × String))
    (s : LimiterState) :
    updateFromHeadersE now headers s = Except.ok (updateFromHeaders now headers s) := by
  unfold updateFromHeaders updateFromHeadersE tryBody
  cases pyInt (dictGet (headerMap headers) usedKey "0") <;>
    cases pyInt (dictGet (headerMap headers) remainingKey "0") <;>
      cases pyInt (dictGet (headerMap headers) resetKey "0") <;> rfl

/-- Claim C6 counterexample: an update whose parse fails (the
missing-header count increments) still overwrites `_last_header_time`
with the current time, because the assignment happens unconditionally
before the `try:` block — so the field is not the time of the most
recent successful parse. -/
theorem C6_counterexample :
    ((updateFromHeaders 7 [("X-Ratelimit-Used", "abc")] initState).missing_headers_count =
      initState.missing_headers_count + 1) ∧
    ((updateFromHeaders 7 [("X-Ratelimit-Used", "abc")] initState).last_header_time = 7) ∧
    initState.last_header_time = 0 ∧ (7 : ℚ) ≠ 0 :=
  ⟨by decide, rfl, rfl, by norm_num⟩

/-- Claim C6 as amended: `update_from_headers` sets `_last_header_time`
to the current time on every call, successful or not. -/
theorem C6_amended_always_stamped (now : ℚ) (headers : List (String × String))
    (s : LimiterState) :
    (updateFromHeaders now headers s).last_header_time = now := by
  unfold updateFromHeaders updateFromHeadersE tryBody
  cases pyInt (dictGet (headerMap headers) usedKey "0") <;>
    cases pyInt (dictGet (headerMap headers) remainingKey "0") <;>
      cases pyInt (dictGet (headerMap headers) resetKey "0") <;> rfl

/-- Claim C3: evaluation of the code at the failing input.  After the
exhaustion snapshot (`used=595, remaining=5, reset=60`) the computation
returns the positive throttling value 15 s, as the claim says; but after
the reset snapshot (`used=0, remaining=600, reset=600`) it returns
5/4 s with a throttling reason, not 0 with "sufficient request
allowance": case 3 requires `600 > 600*1.0*1.5 = 900`, which fails, and
case 4 gives `safe_rps = 0.8 < 1.0`.  This contradicts the claim and the
code's own test `test_rt3_rate_reset`. -/
theorem C3_reset_snapshot_eval :
    (calcSleepTime (mkRateLimiter 0.8 1.0 60)
        (updateFromHeaders 0
          [("X-Ratelimit-Used", "595"), ("X-Ratelimit-Remaining", "5"),
           ("X-Ratelimit-Reset", "60")] initState) =
      (15, "throttling to 0.07 req/sec")) ∧
    (calcSleepTime (mkRateLimiter 0.8 1.0 60)
        (updateFromHeaders 1
          [("X-Ratelimit-Used", "0"), ("X-Ratelimit-Remaining", "600"),
           ("X-Ratelimit-Reset", "600")]
          (updateFromHeaders 0
            [("X-Ratelimit-Used", "595"), ("X-Ratelimit-Remaining", "5"),
             ("X-Ratelimit-Reset", "60")] initState)) =
      (5/4, "throttling to 0.80 req/sec")) ∧
    ((calcSleepTime (mkRateLimiter 0.8 1.0 60)
        (updateFromHeaders 1
          [("X-Ratelimit-Used", "0"), ("X-Ratelimit-Remaining", "600"),
           ("X-Ratelimit-Reset", "600")]
          (updateFromHeaders 0
            [("X-Ratelimit-Used", "595"), ("X-Ratelimit-Remaining", "5"),
             ("X-Ratelimit-Reset", "60")] initState))).2 ≠
      "sufficient request allowance") := by
  have hr1 : (updateFromHeaders 0
      [("X-Ratelimit-Used", "595"), ("X-Ratelimit-Remaining", "5"),
       ("X-Ratelimit-Reset", "60")] initState).remaining = some 5 := by decide
  have ht1 : (updateFromHeaders 0
      [("X-Ratelimit-Used", "595"), ("X-Ratelimit-Remaining", "5"),
       ("X-Ratelimit-Reset", "60")] initState).reset_seconds = some 60 := by decide
  have hr2 : (updateFromHeaders 1
      [("X-Ratelimit-Used", "0"), ("X-Ratelimit-Remaining", "600"),
       ("X-Ratelimit-Reset", "600")]
      (updateFromHeaders 0
        [("X-Ratelimit-Used", "595"), ("X-Ratelimit-Remaining", "5"),
         ("X-Ratelimit-Reset", "60")] initState)).remaining = some 600 := by decide
  have ht2 : (updateFromHeaders 1
      [("X-Ratelimit-Used", "0"), ("X-Ratelimit-Remaining", "600"),
       ("X-Ratelimit-Reset", "600")]
      (updateFromHeaders 0
        [("X-Ratelimit-Used", "595"), ("X-Ratelimit-Remaining", "5"),
         ("X-Ratelimit-Reset", "60")] initState)).reset_seconds = some 600 := by decide
  rw [mkRateLimiter_default_eval]
  rw [calcSleepTime_throttle _ _ 5 60 hr1 ht1 (by norm_num)
      (by dsimp only; push_cast; norm_num) (by norm_num)
      (by dsimp only; push_cast; norm_num) (by dsimp only; push_cast; norm_num)]
  rw [calcSleepTime_throttle _ _ 600 600 hr2 ht2 (by norm_num)
      (by dsimp only; push_cast; norm_num) (by norm_num)
      (by dsimp only; push_cast; norm_num) (by dsimp only; push_cast; norm_num)]
  have hq1 : (((5 : Int) : ℚ) / ((60 : Int) : ℚ)) *
      ({ safe_margin := 4/5, min_rps_threshold := 1, fallback_max_rpm := 60 } :
        RateLimiter).safe_margin = 1/15 := by
    dsimp only
    push_cast
    norm_num
  have hq2 : (((600 : Int) : ℚ) / ((600 : Int) : ℚ)) *
      ({ safe_margin := 4/5, min_rps_threshold := 1, fallback_max_rpm := 60 } :
        RateLimiter).safe_margin = 4/5 := by
    dsimp only
    push_cast
    norm_num
  rw [hq1, hq2, fmt2_eval_one_fifteenth, fmt2_eval_four_fifths]
  have hmin1 : min (1 / (1/15 : ℚ)) ((60 : Int) : ℚ) = 15 := by
    rw [min_eq_left (by push_cast; norm_num)]
    norm_num
  have hmin2 : min (1 / (4/5 : ℚ)) ((600 : Int) : ℚ) = 5/4 := by
    rw [min_eq_left (by push_cast; norm_num)]
    norm_num
  rw [hmin1, hmin2,
    show "throttling to " ++ "0.07" ++ " req/sec" = "throttling to 0.07 req/sec"
      from by decide,
    show "throttling to " ++ "0.80" ++ " req/sec" = "throttling to 0.80 req/sec"
      from by decide]
  exact ⟨rfl, rfl, by decide⟩

/-- Claim C4 counterexample: with the default configuration and
`remaining = 1`, `reset_seconds = 60` (a state with `remaining ≤ 2`),
case 4 fires before case 5: the computation returns 60 s with a
throttling reason, not 59 s with "waiting for rate limit reset". -/
theorem C4_counterexample :
    (calcSleepTime (mkRateLimiter 0.8 1.0 60)
        { used := some 599, remaining := some 1, reset_seconds := some 60,
          last_header_time := 0, missing_headers_count := 0 } =
      (60, "throttling to 0.01 req/sec")) ∧
    (calcSleepTime (mkRateLimiter 0.8 1.0 60)
        { used := some 599, remaining := some 1, reset_seconds := some 60,
          last_header_time := 0, missing_headers_count := 0 } ≠
      (59, "waiting for rate limit reset")) := by
  rw [mkRateLimiter_default_eval]
  rw [calcSleepTime_throttle _ _ 1 60 rfl rfl (by norm_num)
      (by dsimp only; push_cast; norm_num) (by norm_num)
      (by dsimp only; push_cast; norm_num) (by dsimp only; push_cast; norm_num)]
  have hq : (((1 : Int) : ℚ) / ((60 : Int) : ℚ)) *
      ({ safe_margin := 4/5, min_rps_threshold := 1, fallback_max_rpm := 60 } :
        RateLimiter).safe_margin = 1/75 := by
    dsimp only
    push_cast
    norm_num
  rw [hq, fmt2_eval_one_seventyfifth]
  have hmin : min (1 / (1/75 : ℚ)) ((60 : Int) : ℚ) = 60 := by
    rw [min_eq_right (by push_cast; norm_num)]
    push_cast
    norm_num
  rw [hmin,
    show "throttling to " ++ "0.01" ++ " req/sec" = "throttling to 0.01 req/sec"
      from by decide]
  exact ⟨rfl, fun hc => absurd (congrArg Prod.snd hc) (by decide)⟩

/-- Claim C4 as amended: with the default configuration, a state with
`remaining ≤ 0` and `reset_seconds = 60` skips the case-4 guard
(`remaining > 0`) and reaches case 5, returning
`max(1, 59) = 59` seconds with reason "waiting for rate limit reset";
for `remaining ∈ {1, 2}` case 4 fires first instead. -/
theorem C4_amended_nonpositive_remaining (s : LimiterState) (r : Int)
    (h : s.remaining = some r) (hr : r ≤ 0) (hreset : s.reset_seconds = some 60) :
    calcSleepTime (mkRateLimiter 0.8 1.0 60) s = (59, "waiting for rate limit reset") := by
  have hq : (r : ℚ) ≤ 0 := by exact_mod_cast hr
  rw [mkRateLimiter_default_eval]
  rw [calcSleepTime_wait_reset _ _ r 60 h hreset (by norm_num)
      (by dsimp only; push_cast; intro hgt; linarith)
      (by omega) (by omega)]
  have hmax : max (1 : Int) (60 - 1) = 59 := by omega
  rw [hmax]
  exact congrArg (fun x => (x, "waiting for rate limit reset")) (by push_cast; norm_num)

/-- Witness for the amended C4 theorem at a concrete input. -/
theorem C4_amended_nonpositive_remaining_witness :
    (({ used := some 600, remaining := some 0, reset_seconds := some 60,
        last_header_time := 0, missing_headers_count := 0 } : LimiterState).remaining =
      some 0) ∧ ((0 : Int) ≤ 0) ∧
    (({ used := some 600, remaining := some 0, reset_seconds := some 60,
        last_header_time := 0, missing_headers_count := 0 } : LimiterState).reset_seconds =
      some 60) ∧
    calcSleepTime (mkRateLimiter 0.8 1.0 60)
      { used := some 600, remaining := some 0, reset_seconds := some 60,
        last_header_time := 0, missing_headers_count := 0 } =
      (59, "waiting for rate limit reset") :=
  ⟨rfl, le_refl 0, rfl, C4_amended_nonpositive_remaining _ 0 rfl (le_refl 0) rfl⟩

/-- Claim C9: for every constructor configuration, whenever `remaining`
or `reset_seconds` is absent the computation returns exactly
`60 / fallback_max_rpm` seconds with reason "fallback rate limiting",
and with `fallback_max_rpm = 60` every such `sleep()` pauses exactly 1
second. -/
theorem C9_fallback_behavior (sm mt : ℚ) (fb : Int) (s : LimiterState)
    (h : s.remaining = none ∨ s.reset_seconds = none) :
    calcSleepTime (mkRateLimiter sm mt fb) s =
      (60 / ((mkRateLimiter sm mt fb).fallback_max_rpm : ℚ), "fallback rate limiting") ∧
    sleepDuration (mkRateLimiter sm mt 60) s = 1 := by
  refine ⟨calcSleepTime_fallback _ _ h, ?_⟩
  have h60 : (mkRateLimiter sm mt 60).fallback_max_rpm = 60 := by
    unfold mkRateLimiter
    exact max_eq_right (by norm_num)
  show (if (calcSleepTime (mkRateLimiter sm mt 60) s).1 > 0
    then (calcSleepTime (mkRateLimiter sm mt 60) s).1 else 0) = 1
  rw [calcSleepTime_fallback _ _ h, h60]
  norm_num

/-- Witness for the C9 theorem at a concrete input. -/
theorem C9_fallback_behavior_witness :
    (initState.remaining = none ∨ initState.reset_seconds = none) ∧
    (calcSleepTime (mkRateLimiter 0.8 1.0 60) initState =
      (60 / ((mkRateLimiter 0.8 1.0 60).fallback_max_rpm : ℚ), "fallback rate limiting") ∧
     sleepDuration (mkRateLimiter 0.8 1.0 60) initState = 1) :=
  ⟨Or.inl rfl, C9_fallback_behavior 0.8 1.0 60 initState (Or.inl rfl)⟩

/-- Claim C10: for every constructor configuration and every limiter
state (including zero or negative parsed values), the computed sleep
duration is nonnegative. -/
theorem C10_sleep_time_nonneg (sm mt : ℚ) (fb : Int) (s : LimiterState) :
    0 ≤ (calcSleepTime (mkRateLimiter sm mt fb) s).1 := by
  set rl := mkRateLimiter sm mt fb with hrl
  have hfb : (0 : ℚ) < (rl.fallback_max_rpm : ℚ) := by
    have h1 : (1 : Int) ≤ rl.fallback_max_rpm := le_max_left 1 fb
    exact_mod_cast lt_of_lt_of_le Int.zero_lt_one h1
  rcases s with ⟨u, rem, rst, lt, mc⟩
  cases rem with
  | none =>
    cases rst with
    | none => exact div_nonneg (by norm_num) hfb.le
    | some b => exact div_nonneg (by norm_num) hfb.le
  | some a =>
    cases rst with
    | none => exact div_nonneg (by norm_num) hfb.le
    | some b =>
      unfold calcSleepTime
      dsimp only
      by_cases h2 : b < 2
      · rw [if_pos h2]
      · rw [if_neg h2]
        by_cases h3 : (a : ℚ) > (b : ℚ) * rl.min_rps_threshold * 1.5
        · rw [if_pos h3]
        · rw [if_neg h3]
          by_cases h4 : a > 0 ∧ b > 0
          · rw [if_pos h4]
            by_cases h5 : ((a : ℚ) / (b : ℚ)) * rl.safe_margin < rl.min_rps_threshold
            · rw [if_pos h5]
              dsimp only
              have hb : (0 : ℚ) < (b : ℚ) := by exact_mod_cast h4.2
              by_cases h6 : ((a : ℚ) / (b : ℚ)) * rl.safe_margin > 0
              · rw [if_pos h6]
                exact le_min (le_of_lt (one_div_pos.mpr h6)) hb.le
              · rw [if_neg h6]
                rw [min_self]
                exact hb.le
            · rw [if_neg h5]
              dsimp only
              by_cases h7 : a ≤ 2
              · rw [if_pos h7]
                dsimp only
                have hm : (0 : Int) ≤ max 1 (b - 1) :=
                  le_trans zero_le_one (le_max_left _ _)
                exact_mod_cast hm
              · rw [if_neg h7]
          · rw [if_neg h4]
            dsimp only
            by_cases h7 : a ≤ 2
            · rw [if_pos h7]
              dsimp only
              have hm : (0 : Int) ≤ max 1 (b - 1) :=
                le_trans zero_le_one (le_max_left _ _)
              exact_mod_cast hm
            · rw [if_neg h7]
